import Mathlib

/-!
Verification development for the notification-microservice delivery pipeline.

The definitions below are a shallow embedding of the Python source:

- app/tasks/webhook_tasks.py       (webhook delivery retry engine)
- app/tasks/notification_tasks.py  (dispatcher retry engine)
- app/api/v1/msg91/webhooks.py     (inbound provider status handler)
- app/api/v1/notifications.py      (revocation endpoint)
- app/services/notification_service.py (creation and outbound dedup)
- app/repositories/notification_repository.py (update_status and friends)
- app/models/notification.py, app/models/webhook.py (data model)

Database rows become Lean structures, each task unit becomes a pure step
function parameterized by the I/O results it observes (HTTP responses,
provider responses, the current clock), and side effects that later steps
observe (status writes, appended DeliveryAttempt rows, scheduled retries,
emitted subscriber events) appear in the step's result value.
Timestamps are seconds as naturals.
-/

/-- Statuses of app/models/notification.py NotificationStatus. -/
inductive NotificationStatus
  | pending
  | queued
  | sending
  | delivered
  | failed
  | seen
  | cancelled
deriving DecidableEq, Repr

/-- Statuses of app/models/webhook.py WebhookStatus. -/
inductive WebhookStatus
  | pending
  | acknowledged
  | failed
  | retrying
deriving DecidableEq, Repr

/-- Channels of app/models/notification.py NotificationType. -/
inductive NotificationType
  | sms
  | email
  | whatsapp
deriving DecidableEq, Repr

/-- webhook_tasks.py: IMMEDIATE_ATTEMPTS = 6. -/
def IMMEDIATE_ATTEMPTS : Nat := 6

/-- webhook_tasks.py: INITIAL_RETRY_DELAY = 60 seconds. -/
def INITIAL_RETRY_DELAY : Nat := 60

/-- webhook_tasks.py: MAX_RETRY_DELAY = 10800 seconds (3 hours). -/
def MAX_RETRY_DELAY : Nat := 10800

/-- webhook_tasks.py: BACKOFF_MULTIPLIER = 2. -/
def BACKOFF_MULTIPLIER : Nat := 2

/-- notification_tasks.py: MAX_RETRIES = 3. -/
def MAX_RETRIES : Nat := 3

/-- notification_tasks.py: RETRY_DELAYS = [5, 15, 30] minutes. -/
def RETRY_DELAYS : List Nat := [5, 15, 30]

/-- One webhook_deliveries row (app/models/webhook.py WebhookDelivery). -/
structure WebhookDelivery where
  status : WebhookStatus := WebhookStatus.pending
  attemptCount : Nat := 0
  immediateAttempts : Nat := 0
  lastAttemptAt : Option Nat := none
  nextRetryAt : Option Nat := none
  acknowledgedAt : Option Nat := none
  responseStatusCode : Option Nat := none
  responseBody : Option String := none
  errorMessage : Option String := none
  createdAt : Nat := 0
deriving DecidableEq, Repr

/-- Outcome of the POST to the subscriber endpoint, as observed by
_send_single_webhook_async: either an HTTP response or an httpx request
error. -/
inductive HttpResult
  | response (code : Nat) (body : String)
  | requestError (msg : String)
deriving DecidableEq, Repr

/-- True exactly for an HTTP 200 response (the only success the task
recognizes). -/
def HttpResult.isSuccess : HttpResult → Bool
  | HttpResult.response 200 _ => true
  | _ => false

/-- The response.text slice stored on the row (first 1000 characters). -/
def truncateResponseBody (s : String) : String :=
  String.mk (s.data.take 1000)

/-- Result of one run of _send_single_webhook_async: what was written to the
row and what (if anything) was scheduled via task.retry. -/
inductive WebhookStepResult
  | notFound
  | alreadyAcknowledged
  | acknowledged (d : WebhookDelivery)
  | retryImmediate (d : WebhookDelivery)
  | retryDelayed (delay : Nat) (d : WebhookDelivery)
  | markedFailed (d : WebhookDelivery)
  | noAction (d : WebhookDelivery)
deriving DecidableEq, Repr

/-- The row state recorded by a step result, when the step touched the row. -/
def WebhookStepResult.deliveryState : WebhookStepResult → Option WebhookDelivery
  | WebhookStepResult.acknowledged d => some d
  | WebhookStepResult.retryImmediate d => some d
  | WebhookStepResult.retryDelayed _ d => some d
  | WebhookStepResult.markedFailed d => some d
  | WebhookStepResult.noAction d => some d
  | _ => none

/-- The countdown passed to task.retry by a step result, when it scheduled
another attempt. -/
def WebhookStepResult.scheduledDelay : WebhookStepResult → Option Nat
  | WebhookStepResult.retryImmediate _ => some 0
  | WebhookStepResult.retryDelayed delay _ => some delay
  | _ => none

/-- webhook_tasks.py lines 197-233: the shared failure tail of
_send_single_webhook_async. Within the immediate budget the task re-enqueues
itself with countdown 0; after the budget it computes the exponential backoff
delay, fails terminally when elapsed time since creation plus that delay
exceeds MAX_RETRY_DELAY, and otherwise schedules the delayed retry. The final
branch is the implicit Python fall-through (no commit, no schedule). -/
def webhookFailurePath (d : WebhookDelivery) (isImmediate : Bool) (now : Nat) : WebhookStepResult :=
  if isImmediate ∧ d.immediateAttempts < IMMEDIATE_ATTEMPTS then
    WebhookStepResult.retryImmediate { d with status := WebhookStatus.retrying }
  else if IMMEDIATE_ATTEMPTS ≤ d.immediateAttempts then
    let retryNumber := d.attemptCount - IMMEDIATE_ATTEMPTS
    let delay := min (INITIAL_RETRY_DELAY * BACKOFF_MULTIPLIER ^ retryNumber) MAX_RETRY_DELAY
    let timeElapsed := now - d.createdAt
    if MAX_RETRY_DELAY < timeElapsed + delay then
      WebhookStepResult.markedFailed
        { d with status := WebhookStatus.failed,
                 errorMessage := some "Exceeded maximum retry time (3 hours)" }
    else
      WebhookStepResult.retryDelayed delay
        { d with status := WebhookStatus.retrying, nextRetryAt := some (now + delay) }
  else
    WebhookStepResult.noAction d

/-- webhook_tasks.py _send_single_webhook_async: one webhook delivery attempt.
The row fetch is abstracted to an Option argument; the POST outcome and the
clock are parameters. Mirrors the source order: acknowledged short-circuit,
attempt_count increment, immediate_attempts increment while under budget,
response recording, HTTP 200 acknowledgement, and otherwise the failure tail. -/
def sendSingleWebhook (deliveryRow : Option WebhookDelivery) (resp : HttpResult) (now : Nat) :
    WebhookStepResult :=
  match deliveryRow with
  | none => WebhookStepResult.notFound
  | some d0 =>
    if d0.status = WebhookStatus.acknowledged then WebhookStepResult.alreadyAcknowledged
    else
      let d1 := { d0 with attemptCount := d0.attemptCount + 1, lastAttemptAt := some now }
      let isImmediate : Bool := d1.immediateAttempts < IMMEDIATE_ATTEMPTS
      let d2 :=
        if d1.immediateAttempts < IMMEDIATE_ATTEMPTS then
          { d1 with immediateAttempts := d1.immediateAttempts + 1 }
        else d1
      match resp with
      | HttpResult.response code body =>
        let d3 := { d2 with
          responseStatusCode := some code,
          responseBody := some (truncateResponseBody body) }
        if code = 200 then
          WebhookStepResult.acknowledged
            { d3 with status := WebhookStatus.acknowledged, acknowledgedAt := some now }
        else
          webhookFailurePath
            { d3 with errorMessage := some ("HTTP error " ++ toString code) } isImmediate now
      | HttpResult.requestError msg =>
        webhookFailurePath
          { d2 with errorMessage := some ("Request error: " ++ msg) } isImmediate now

/-- The backoff delay the next failing run would compute for this row
(attempt_count is incremented before the computation in the source). -/
def nextBackoffDelay (d : WebhookDelivery) : Nat :=
  min (INITIAL_RETRY_DELAY * BACKOFF_MULTIPLIER ^ (d.attemptCount + 1 - IMMEDIATE_ATTEMPTS))
    MAX_RETRY_DELAY

/-- Chain several webhook delivery attempts: each non-terminal result feeds the
recorded row state into the next attempt; a terminal result stops the chain. -/
def runWebhook (d : WebhookDelivery) (steps : List (HttpResult × Nat)) : WebhookStepResult :=
  match steps with
  | [] => WebhookStepResult.noAction d
  | (r, t) :: rest =>
    let res := sendSingleWebhook (some d) r t
    match rest with
    | [] => res
    | _ =>
      match res with
      | WebhookStepResult.retryImmediate d2 => runWebhook d2 rest
      | WebhookStepResult.retryDelayed _ d2 => runWebhook d2 rest
      | _ => res

/-- One notifications row (app/models/notification.py Notification).
external_id is stored in the source as a JSON-serialized dict of provider ids;
it is modelled as the parsed association list. The meta_data webhook_events
log kept by the inbound handler is modelled by webhookEvents. -/
structure Notification where
  status : NotificationStatus := NotificationStatus.pending
  type : NotificationType := NotificationType.email
  recipient : String := ""
  content : String := ""
  subject : Option String := none
  providerId : Option Nat := none
  externalId : Option (List (String × String)) := none
  errorMessage : Option String := none
  retryCount : Nat := 0
  taskId : Option String := none
  webhookEvents : List String := []
  createdAt : Nat := 0
  updatedAt : Nat := 0
  sentAt : Option Nat := none
  deliveredAt : Option Nat := none
  failedAt : Option Nat := none
deriving DecidableEq, Repr

/-- One delivery_attempts row (app/models/delivery_attempt.py). -/
structure DeliveryAttempt where
  status : NotificationStatus := NotificationStatus.sending
  providerName : Option String := none
  errorMessage : Option String := none
  externalId : Option String := none
  attemptedAt : Nat := 0
deriving DecidableEq, Repr

/-- A providers row as the dispatcher consumes it (app/models/provider.py);
only the name drives control flow in _send_notification. -/
structure Provider where
  name : String
deriving DecidableEq, Repr

/-- The provider lookup the dispatcher performs: byId is
provider_repo.get_provider. The fallback lookup the dispatcher attempts when
no explicit provider resolves (provider_repo.get_active_providers,
notification_tasks.py line 323) has no counterpart here because
ProviderRepository defines no such method — that call raises AttributeError,
which sendNotificationUnit models directly. -/
structure ProviderEnv where
  byId : Nat → Option Provider

/-- The text of the AttributeError raised by notification_tasks.py line 323:
ProviderRepository has no get_active_providers method, so the fallback lookup
crashes before any provider can be selected. (The Python message carries
quotes around the two names; they are elided here.) -/
def getActiveProvidersError : String :=
  "ProviderRepository object has no attribute get_active_providers"

/-- The provider send result as the dispatcher consumes it
(app/providers base contract): success flag, optional message id and error
text, and the ids found under raw_response.data. -/
structure ProviderResponse where
  success : Bool
  messageId : Option String := none
  errorMessage : Option String := none
  rawData : Option (List (String × String)) := none
deriving DecidableEq, Repr

/-- notification_tasks.py lines 404-422: collect message_id, unique_id,
thread_id and id from raw_response.data, dropping absent keys. -/
def extractExternalIds (raw : Option (List (String × String))) : List (String × String) :=
  match raw with
  | none => []
  | some data =>
    ["message_id", "unique_id", "thread_id", "id"].filterMap
      (fun k => (data.lookup k).map (fun v => (k, v)))

/-- notification_repository.py update_status: sets status and updated_at, the
status-specific timestamps (delivered_at, failed_at with the error text,
sent_at), and external_id when one is supplied. The error text is only stored
on the FAILED branch, exactly as in the source. -/
def updateStatus (n : Notification) (st : NotificationStatus) (err : Option String)
    (extId : Option (List (String × String))) (now : Nat) : Notification :=
  let n1 := { n with status := st, updatedAt := now }
  let n2 :=
    if st = NotificationStatus.delivered then { n1 with deliveredAt := some now }
    else if st = NotificationStatus.failed then
      match err with
      | some m => { n1 with failedAt := some now, errorMessage := some m }
      | none => { n1 with failedAt := some now }
    else if st = NotificationStatus.sending then { n1 with sentAt := some now }
    else n1
  match extId with
  | some l => { n2 with externalId := some l }
  | none => n2

/-- Result of one run of _send_notification: either an early return without
mutation, a successful send, or a re-raised exception after the row and the
attempt were marked FAILED. -/
inductive DispatchResult
  | notFound
  | alreadyProcessed (n : Notification)
  | sent (n : Notification) (attempt : DeliveryAttempt)
  | raised (n : Notification) (attempt : DeliveryAttempt) (err : String)
deriving DecidableEq, Repr

/-- notification_tasks.py _send_notification lines 309-478 after provider
resolution picked provider p: invoke the provider, set QUEUED on success and
FAILED on failure, store the extracted external ids, stamp sent_at, update the
attempt row, and on failure re-raise through the except handler that marks the
row FAILED with the wrapped error text. -/
def dispatchSend (n2 : Notification) (att0 : DeliveryAttempt) (p : Provider)
    (resp : ProviderResponse) (now : Nat) : DispatchResult :=
  let newStatus :=
    if resp.success then NotificationStatus.queued else NotificationStatus.failed
  let extIds := extractExternalIds resp.rawData
  let extId : Option (List (String × String)) := if extIds.isEmpty then none else some extIds
  let errOnFail : Option String := if resp.success then none else resp.errorMessage
  let n3 := updateStatus n2 newStatus errOnFail extId now
  let n4 := { n3 with sentAt := some now }
  let att1 := { att0 with
    externalId := resp.messageId, status := newStatus,
    providerName := some p.name, errorMessage := errOnFail }
  if resp.success then
    DispatchResult.sent n4 att1
  else
    let msg := "Provider failed: " ++ (resp.errorMessage.getD "None")
    let n5 := updateStatus n4 NotificationStatus.failed (some msg) none now
    DispatchResult.raised n5
      { att1 with status := NotificationStatus.failed, errorMessage := some msg }
      ("Failed to send notification: " ++ msg)

/-- notification_tasks.py _send_notification: one dispatcher run. The row
fetch is an Option argument; the explicit provider lookup and the provider
send result are parameters. Mirrors the source order: the PENDING/QUEUED
re-entry guard (any other status returns without mutation), task id
recording, the SENDING transition with its DeliveryAttempt row, provider
resolution, the name dispatch on msg91/mock, and the send. When no explicit
provider resolves (provider_id unset, or get_provider misses after the
"falling back" warning), the source calls provider_repo.get_active_providers
— a method ProviderRepository does not define — so that branch raises
AttributeError inside the try block; the except handler marks the row FAILED
with the error text and re-raises, like every other resolution failure. -/
def sendNotificationUnit (notificationRow : Option Notification) (taskId : Option String)
    (env : ProviderEnv) (resp : ProviderResponse) (now : Nat) : DispatchResult :=
  match notificationRow with
  | none => DispatchResult.notFound
  | some n0 =>
    if ¬ (n0.status = NotificationStatus.pending ∨ n0.status = NotificationStatus.queued) then
      DispatchResult.alreadyProcessed n0
    else
      let n1 :=
        match taskId with
        | some t => { n0 with taskId := some t }
        | none => n0
      let n2 := updateStatus n1 NotificationStatus.sending none none now
      let att0 : DeliveryAttempt := { status := NotificationStatus.sending, attemptedAt := now }
      let explicit : Option Provider :=
        match n2.providerId with
        | some pid => env.byId pid
        | none => none
      match explicit with
      | none =>
        let msg := getActiveProvidersError
        let n3 := updateStatus n2 NotificationStatus.failed (some msg) none now
        DispatchResult.raised n3
          { att0 with status := NotificationStatus.failed, errorMessage := some msg }
          ("Failed to send notification: " ++ msg)
      | some p =>
        if ¬ (p.name = "msg91" ∨ p.name = "mock") then
          let msg := "Unknown provider type: " ++ p.name
          let n3 := updateStatus n2 NotificationStatus.failed (some msg) none now
          DispatchResult.raised n3
            { att0 with status := NotificationStatus.failed, errorMessage := some msg }
            ("Failed to send notification: " ++ msg)
        else
          dispatchSend n2 att0 p resp now

/-- Outcome of one send_notification_task celery execution: the unit's result
plus what the except handler did with a raised error — schedule a retry while
retries remain (RETRY_DELAYS minutes, last value reused), or enqueue the
terminal mark_notification_failed task on exhaustion. -/
inductive TaskOutcome
  | completed (r : DispatchResult)
  | retryScheduled (delayMinutes : Nat) (r : DispatchResult)
  | markFailedEnqueued (err : String) (r : DispatchResult)
deriving DecidableEq, Repr

/-- notification_tasks.py send_notification_task lines 136-192: run the unit;
on a raised error retry with the escalating countdown while
self.request.retries < MAX_RETRIES, else hand off to mark_notification_failed. -/
def sendNotificationTask (retries : Nat) (notificationRow : Option Notification)
    (taskId : Option String) (env : ProviderEnv) (resp : ProviderResponse) (now : Nat) :
    TaskOutcome :=
  let r := sendNotificationUnit notificationRow taskId env resp now
  match r with
  | DispatchResult.raised _ _ err =>
    if retries < MAX_RETRIES then
      TaskOutcome.retryScheduled (RETRY_DELAYS.getD (min retries (RETRY_DELAYS.length - 1)) 0) r
    else
      TaskOutcome.markFailedEnqueued err r
  | _ => TaskOutcome.completed r

/-- notification_tasks.py _mark_notification_failed: permanently mark FAILED
with the max-retries message and append a final DeliveryAttempt row. -/
def markNotificationFailed (notificationRow : Option Notification) (err : String) (now : Nat) :
    Option (Notification × DeliveryAttempt) :=
  match notificationRow with
  | none => none
  | some n =>
    let msg := "Max retries exceeded: " ++ err
    let n2 := updateStatus n NotificationStatus.failed (some msg) none now
    some (n2, { status := NotificationStatus.failed, errorMessage := some msg,
                attemptedAt := now })

/-- An inbound MSG91 status callback as the handler consumes it
(app/api/v1/msg91/webhooks.py receive_msg91_webhook): the ids extracted from
the payload, the lowercased event title, and the failure reason from
recipient.meta. -/
structure InboundEvent where
  uniqueId : Option String := none
  messageId : Option String := none
  threadId : Option String := none
  eventTitle : String := ""
  reason : Option String := none
deriving DecidableEq, Repr

/-- webhooks.py lines 324-332: the MSG91 event title to NotificationStatus
mapping; unknown titles map to nothing. -/
def statusMapping : String → Option NotificationStatus
  | "queued" => some NotificationStatus.queued
  | "sent" => some NotificationStatus.sending
  | "delivered" => some NotificationStatus.delivered
  | "bounced" => some NotificationStatus.failed
  | "failed" => some NotificationStatus.failed
  | "opened" => some NotificationStatus.seen
  | "clicked" => some NotificationStatus.seen
  | _ => none

/-- webhooks.py lines 296-317: a stored notification matches the callback when
its parsed external_id dict carries one of the callback's ids under
unique_id, message_id, thread_id, or (for unique_id) the plain id key.
Rows without an external_id are filtered out by the query and never match. -/
def matchesEvent (e : InboundEvent) (n : Notification) : Bool :=
  match n.externalId with
  | none => false
  | some ids =>
    (match e.uniqueId with
     | some u => ids.lookup "unique_id" == some u
     | none => false) ||
    (match e.messageId with
     | some m => ids.lookup "message_id" == some m
     | none => false) ||
    (match e.threadId with
     | some t => ids.lookup "thread_id" == some t
     | none => false) ||
    (match e.uniqueId with
     | some u => ids.lookup "id" == some u
     | none => false)

/-- webhooks.py generate_webhook_key: the dedup key hashes the event source id
(unique_id, falling back to the stringified thread id), the event title, and
the MINUTE-truncated processing timestamp. The md5 is modelled by keeping the
hashed triple itself. -/
def generateWebhookKey (e : InboundEvent) (now : Nat) : String × String × Nat :=
  (match e.uniqueId with
   | some u => u
   | none =>
     match e.threadId with
     | some t => t
     | none => "None",
   e.eventTitle, now / 60)

/-- The redis dedup store: key to expiry timestamp (setex with a 3h TTL). -/
structure DedupStore where
  entries : List ((String × String × Nat) × Nat) := []
deriving DecidableEq, Repr

/-- webhooks.py is_webhook_processed: a key counts as processed while an entry
for it has not yet expired. -/
def isWebhookProcessed (s : DedupStore) (key : String × String × Nat) (now : Nat) : Bool :=
  s.entries.any (fun kv => kv.1 == key && now < kv.2)

/-- webhooks.py mark_webhook_processed: setex with a 10800-second TTL. -/
def markWebhookProcessed (s : DedupStore) (key : String × String × Nat) (now : Nat) :
    DedupStore :=
  { entries := (key, now + 10800) :: s.entries }

/-- webhooks.py lines 320-371: apply the mapped status to the matched
notification. The mapping is applied UNCONDITIONALLY — there is no check of
the current status. DELIVERED stamps delivered_at; FAILED stamps failed_at and
the reason; SEEN re-checks status against DELIVERED only after the status was
already overwritten with SEEN, so the delivered_at stamp always fires.
meta_data gains a webhook_events entry and updated_at advances even for
unmapped event titles. Returns the updated row and the appended
DeliveryAttempt. -/
def applyInboundEvent (e : InboundEvent) (n : Notification) (now : Nat) :
    Notification × DeliveryAttempt :=
  let newStatus := statusMapping e.eventTitle
  let n1 :=
    match newStatus with
    | some st =>
      let na := { n with status := st }
      if st = NotificationStatus.delivered then { na with deliveredAt := some now }
      else if st = NotificationStatus.failed then
        let nb := { na with failedAt := some now }
        match e.reason with
        | some r => { nb with errorMessage := some r }
        | none => nb
      else if st = NotificationStatus.seen then
        if na.status ≠ NotificationStatus.delivered then { na with deliveredAt := some now }
        else na
      else na
    | none => n
  let n2 := { n1 with updatedAt := now, webhookEvents := n1.webhookEvents ++ [e.eventTitle] }
  let att : DeliveryAttempt :=
    { status := newStatus.getD n2.status,
      providerName := some "msg91",
      errorMessage :=
        if newStatus = some NotificationStatus.failed then n2.errorMessage else none,
      attemptedAt := now }
  (n2, att)

/-- The state the inbound handler reads and writes: the notifications table,
the redis dedup store, the appended delivery_attempts, and the subscriber
webhook events it sent out. -/
structure InboundState where
  notifications : List Notification := []
  store : DedupStore := {}
  attempts : List DeliveryAttempt := []
  emitted : List String := []
deriving DecidableEq, Repr

/-- First notification in table order matching the callback. -/
def findFirstMatch (e : InboundEvent) : List Notification → Option Notification
  | [] => none
  | n :: rest => if matchesEvent e n then some n else findFirstMatch e rest

/-- Replace the first matching notification with its updated row. -/
def replaceFirstMatch (e : InboundEvent) (n2 : Notification) :
    List Notification → List Notification
  | [] => []
  | n :: rest =>
    if matchesEvent e n then n2 :: rest else n :: replaceFirstMatch e n2 rest

/-- webhooks.py receive_msg91_webhook: the full inbound callback flow in
source order — dedup check against the minute-keyed redis entry (a hit is
discarded with no mutation at all), mark-processed with the 3h TTL, the
missing-ids early return, the external_id scan for a matching notification,
the unconditional status application, the appended DeliveryAttempt, and the
subscriber webhook emission when the mapped status actually changed. -/
def receiveMsg91Webhook (s : InboundState) (e : InboundEvent) (now : Nat) : InboundState :=
  let key := generateWebhookKey e now
  if isWebhookProcessed s.store key now then s
  else
    let s1 := { s with store := markWebhookProcessed s.store key now }
    if e.uniqueId.isNone ∧ e.messageId.isNone ∧ e.threadId.isNone then s1
    else
      match findFirstMatch e s1.notifications with
      | none => s1
      | some n =>
        let prev := n.status
        let updated := applyInboundEvent e n now
        let emitted2 :=
          match statusMapping e.eventTitle with
          | some st =>
            if st ≠ prev then s1.emitted ++ ["msg91." ++ e.eventTitle] else s1.emitted
          | none => s1.emitted
        { notifications := replaceFirstMatch e updated.1 s1.notifications,
          store := s1.store,
          attempts := s1.attempts ++ [updated.2],
          emitted := emitted2 }

/-- Result of the revoke endpoint (app/api/v1/notifications.py
revoke_notification): 404, 403, the 400 rejection for terminal statuses, or
the CANCELLED write. -/
inductive RevokeResult
  | notFound
  | accessDenied
  | rejected (st : NotificationStatus)
  | revoked (n : Notification)
deriving DecidableEq, Repr

/-- notifications.py revoke_notification lines 347-397: reject when the status
is DELIVERED or CANCELLED, else update_status to CANCELLED (the "Revoked by
user" text is passed but update_status only stores error text on its FAILED
branch, so the field is left untouched). -/
def revokeNotification (notificationRow : Option Notification) (authorized : Bool)
    (now : Nat) : RevokeResult :=
  match notificationRow with
  | none => RevokeResult.notFound
  | some n =>
    if ¬ authorized then RevokeResult.accessDenied
    else if n.status = NotificationStatus.delivered ∨
            n.status = NotificationStatus.cancelled then
      RevokeResult.rejected n.status
    else
      RevokeResult.revoked
        (updateStatus n NotificationStatus.cancelled (some "Revoked by user") none now)

/-- What the revoke endpoint leaves behind beyond the notification row: the
handler contains no code touching webhook_deliveries and enqueues no webhook
event, so those are carried through unchanged and empty. -/
structure RevokeOutcome where
  result : RevokeResult
  deliveries : List WebhookDelivery
  emittedEvents : List String
deriving DecidableEq, Repr

/-- The revoke endpoint observed together with the service's
webhook_deliveries rows: the handler never reads or writes them and emits no
cancelled event. -/
def revokeNotificationEndpoint (notificationRow : Option Notification) (authorized : Bool)
    (deliveries : List WebhookDelivery) (now : Nat) : RevokeOutcome :=
  { result := revokeNotification notificationRow authorized now,
    deliveries := deliveries,
    emittedEvents := [] }

/-- Python truthiness of the optional subject string as used by the dedup
query filter and the email subject requirement. -/
def subjectTruthy : Option String → Bool
  | some s => !s.isEmpty
  | none => false

/-- notification_service.py _is_duplicate_notification: count stored
notifications with the same recipient, type and content, created inside the
window, whose status is not FAILED; for email with a (truthy) subject the
subject must match too. The md5 fingerprint the method computes is never used
by this query. -/
def isDuplicateNotification (existing : List Notification) (messageType : NotificationType)
    (recipient content : String) (subject : Option String) (windowMinutes : Nat)
    (now : Nat) : Bool :=
  existing.any (fun n =>
    n.recipient == recipient && n.type == messageType && n.content == content &&
    decide (now ≤ n.createdAt + windowMinutes * 60) &&
    n.status != NotificationStatus.failed &&
    (if messageType = NotificationType.email ∧ subjectTruthy subject then
       n.subject == subject
     else true))

/-- Result of notification_service.py create_notification: the
ValidationException for duplicates, the ValueError for a missing email
subject, or the created-and-queued row together with the grown table. -/
inductive CreateResult
  | validationError (msg : String)
  | valueError (msg : String)
  | created (table : List Notification) (n : Notification)
deriving DecidableEq, Repr

/-- notification_service.py create_notification lines 98-186: the duplicate
check runs ONLY when check_duplicates is set AND a deduplication_window was
explicitly supplied (the class-level 30-minute default is unreachable from
here); then the per-type factory stores a PENDING row and the dispatcher task
is enqueued. -/
def createNotification (existing : List Notification) (notificationType : NotificationType)
    (recipient content : String) (subject : Option String) (providerId : Option Nat)
    (checkDuplicates : Bool) (deduplicationWindow : Option Nat) (now : Nat) : CreateResult :=
  let dup :=
    match checkDuplicates, deduplicationWindow with
    | true, some w =>
      isDuplicateNotification existing notificationType recipient content subject w now
    | _, _ => false
  if dup then
    CreateResult.validationError "Duplicate notification detected within deduplication window"
  else if notificationType = NotificationType.email ∧ ¬ subjectTruthy subject then
    CreateResult.valueError "Subject is required for email notifications"
  else
    let n : Notification :=
      { status := NotificationStatus.pending, type := notificationType,
        recipient := recipient, content := content, subject := subject,
        providerId := providerId, createdAt := now, updatedAt := now }
    CreateResult.created (existing ++ [n]) n

/-- The notification row recorded by a dispatch result, when it touched one. -/
def DispatchResult.notificationState : DispatchResult → Option Notification
  | DispatchResult.sent n _ => some n
  | DispatchResult.raised n _ _ => some n
  | DispatchResult.alreadyProcessed n => some n
  | DispatchResult.notFound => none

/-- The provider recorded on the attempt row by a dispatch result. -/
def DispatchResult.attemptProviderName : DispatchResult → Option String
  | DispatchResult.sent _ a => a.providerName
  | DispatchResult.raised _ a _ => a.providerName
  | _ => none

/-- Whether the dispatch result is the success return. -/
def DispatchResult.isSent : DispatchResult → Bool
  | DispatchResult.sent _ _ => true
  | _ => false

/-- Whether the dispatch result re-raised. -/
def DispatchResult.isRaised : DispatchResult → Bool
  | DispatchResult.raised _ _ _ => true
  | _ => false

/-- The error text a dispatch result re-raised with, if any. -/
def DispatchResult.raisedError : DispatchResult → Option String
  | DispatchResult.raised _ _ e => some e
  | _ => none

/-- The dispatch result inside a task outcome. -/
def TaskOutcome.dispatch : TaskOutcome → DispatchResult
  | TaskOutcome.completed r => r
  | TaskOutcome.retryScheduled _ r => r
  | TaskOutcome.markFailedEnqueued _ r => r

/-- The countdown of the retry a task outcome scheduled, if any (minutes). -/
def TaskOutcome.scheduledRetryDelay : TaskOutcome → Option Nat
  | TaskOutcome.retryScheduled d _ => some d
  | _ => none

/-- Whether the revoke endpoint accepted the cancellation. -/
def RevokeResult.isRevoked : RevokeResult → Bool
  | RevokeResult.revoked _ => true
  | _ => false

/-- Whether creation was rejected by the duplicate guard. -/
def CreateResult.isValidationError : CreateResult → Bool
  | CreateResult.validationError _ => true
  | _ => false

/-- The stored-table size after a creation result. -/
def CreateResult.tableLength : CreateResult → Option Nat
  | CreateResult.created t _ => some t.length
  | _ => none

/-- update_status always stores exactly the requested status. -/
theorem updateStatus_status (n : Notification) (st : NotificationStatus) (err : Option String)
    (extId : Option (List (String × String))) (now : Nat) :
    (updateStatus n st err extId now).status = st := by
  unfold updateStatus
  cases extId <;> split_ifs <;> (try cases err) <;> rfl

/-- A notification without an external_id never matches an inbound callback. -/
theorem matchesEvent_of_no_externalId (e : InboundEvent) (n : Notification)
    (h : n.externalId = none) : matchesEvent e n = false := by
  unfold matchesEvent
  rw [h]

/-- The scan finds nothing when nothing matches. -/
theorem findFirstMatch_eq_none (e : InboundEvent) (l : List Notification)
    (h : ∀ n ∈ l, matchesEvent e n = false) : findFirstMatch e l = none := by
  induction l with
  | nil => rfl
  | cons a t ih =>
    unfold findFirstMatch
    rw [h a (List.mem_cons_self a t)]
    simp only [Bool.false_eq_true, if_false]
    exact ih (fun n hn => h n (List.mem_cons_of_mem a hn))

/-- C2 counterexample: an endpoint answering 404 on the first attempt does NOT
leave the WebhookDelivery FAILED — the row is marked RETRYING and an immediate
(zero-delay) re-attempt is scheduled, because _send_single_webhook_async
contains no 4xx short-circuit. -/
theorem c2_counterexample :
    ((sendSingleWebhook (some ({} : WebhookDelivery)) (HttpResult.response 404 "not found")
        0).deliveryState.map WebhookDelivery.status) = some WebhookStatus.retrying ∧
    (sendSingleWebhook (some ({} : WebhookDelivery)) (HttpResult.response 404 "not found")
        0).scheduledDelay = some 0 ∧
    WebhookStatus.retrying ≠ WebhookStatus.failed := by
  decide

/-- Any backoff retry the failure tail schedules keeps elapsed + delay within
the budget. -/
theorem webhookFailurePath_retryDelayed_budget (d : WebhookDelivery) (b : Bool) (now : Nat)
    (delay : Nat) (d2 : WebhookDelivery)
    (h : webhookFailurePath d b now = WebhookStepResult.retryDelayed delay d2) :
    now - d.createdAt + delay ≤ MAX_RETRY_DELAY := by
  simp only [webhookFailurePath] at h
  split at h
  · simp at h
  · split at h
    · split at h
      · simp at h
      · rename_i hguard
        simp only [WebhookStepResult.retryDelayed.injEq] at h
        omega
    · simp at h

/-- When the immediate budget is exhausted and elapsed + the computed backoff
delay passes the budget, the failure tail marks the row FAILED. -/
theorem webhookFailurePath_budget_exceeded (d : WebhookDelivery) (b : Bool) (now : Nat)
    (himm : IMMEDIATE_ATTEMPTS ≤ d.immediateAttempts)
    (hb : MAX_RETRY_DELAY < now - d.createdAt +
      min (INITIAL_RETRY_DELAY * BACKOFF_MULTIPLIER ^ (d.attemptCount - IMMEDIATE_ATTEMPTS))
        MAX_RETRY_DELAY) :
    ∃ d2, webhookFailurePath d b now = WebhookStepResult.markedFailed d2 ∧
      d2.status = WebhookStatus.failed := by
  have hni : ¬ ((b : Prop) ∧ d.immediateAttempts < IMMEDIATE_ATTEMPTS) := by
    rintro ⟨-, hlt⟩
    omega
  simp only [webhookFailurePath, if_neg hni, if_pos himm, if_pos hb]
  exact ⟨_, rfl, rfl⟩

/-- C7: retrying a webhook delivery never extends past the 3-hour budget from
the row's creation: every backoff retry the run schedules satisfies
elapsed-since-creation + delay <= MAX_RETRY_DELAY, and whenever
elapsed-since-creation plus the next computed backoff delay exceeds the
budget, the run marks the row FAILED instead of scheduling. -/
theorem c7_retry_budget (d : WebhookDelivery) (resp : HttpResult) (now : Nat) :
    (∀ delay d2, sendSingleWebhook (some d) resp now = WebhookStepResult.retryDelayed delay d2 →
      now - d.createdAt + delay ≤ MAX_RETRY_DELAY) ∧
    (d.status ≠ WebhookStatus.acknowledged → resp.isSuccess = false →
      IMMEDIATE_ATTEMPTS ≤ d.immediateAttempts + 1 →
      MAX_RETRY_DELAY < now - d.createdAt + nextBackoffDelay d →
      ∃ d2, sendSingleWebhook (some d) resp now = WebhookStepResult.markedFailed d2 ∧
        d2.status = WebhookStatus.failed) := by
  constructor
  · intro delay d2 h
    simp only [sendSingleWebhook] at h
    split at h
    · simp at h
    · cases resp with
      | response code body =>
        simp only at h
        split at h
        · simp at h
        · split at h <;>
            · have hb := webhookFailurePath_retryDelayed_budget _ _ _ _ _ h
              simpa using hb
      | requestError msg =>
        simp only at h
        split at h <;>
          · have hb := webhookFailurePath_retryDelayed_budget _ _ _ _ _ h
            simpa using hb
  · intro hack hfail himm hbudget
    rcases Nat.lt_or_ge d.immediateAttempts IMMEDIATE_ATTEMPTS with hlt | hge
    · cases resp with
      | response code body =>
        have hcode : ¬ code = 200 := by
          intro hc
          subst hc
          simp [HttpResult.isSuccess] at hfail
        simp only [sendSingleWebhook, if_neg hack, hlt, if_true, if_neg hcode]
        refine webhookFailurePath_budget_exceeded _ _ _ ?_ ?_
        · simpa using himm
        · simpa [nextBackoffDelay] using hbudget
      | requestError msg =>
        simp only [sendSingleWebhook, if_neg hack, hlt, if_true]
        refine webhookFailurePath_budget_exceeded _ _ _ ?_ ?_
        · simpa using himm
        · simpa [nextBackoffDelay] using hbudget
    · have hnlt : ¬ d.immediateAttempts < IMMEDIATE_ATTEMPTS := by omega
      cases resp with
      | response code body =>
        have hcode : ¬ code = 200 := by
          intro hc
          subst hc
          simp [HttpResult.isSuccess] at hfail
        simp only [sendSingleWebhook, if_neg hack, if_neg hnlt, if_neg hcode]
        refine webhookFailurePath_budget_exceeded _ _ _ ?_ ?_
        · simpa using hge
        · simpa [nextBackoffDelay] using hbudget
      | requestError msg =>
        simp only [sendSingleWebhook, if_neg hack, if_neg hnlt]
        refine webhookFailurePath_budget_exceeded _ _ _ ?_ ?_
        · simpa using hge
        · simpa [nextBackoffDelay] using hbudget

/-- C7 witness: a concrete retrying row past the budget is marked FAILED. -/
theorem c7_retry_budget_witness :
    ∃ d2, sendSingleWebhook
        (some { status := WebhookStatus.retrying, attemptCount := 6, immediateAttempts := 6,
                createdAt := 0 })
        (HttpResult.response 500 "oops") 10800 = WebhookStepResult.markedFailed d2 ∧
      d2.status = WebhookStatus.failed :=
  (c7_retry_budget
    { status := WebhookStatus.retrying, attemptCount := 6, immediateAttempts := 6,
      createdAt := 0 }
    (HttpResult.response 500 "oops") 10800).2 (by decide) (by decide) (by decide) (by decide)

/-- C6: an endpoint that answers 500 on each of the six immediate-budget
attempts and 200 on the seventh ends with the WebhookDelivery ACKNOWLEDGED at
attempt_count 7; attempts 2-6 are re-attempts scheduled with zero delay, the
sixth failure schedules the first backoff-delayed retry (60 seconds), and the
seventh attempt acknowledges. The only timing constraint is that the sixth
attempt runs inside the 3-hour budget. -/
theorem c6_six_failures_then_ack (t1 t2 t3 t4 t5 t6 t7 : Nat)
    (h : t6 + 60 ≤ MAX_RETRY_DELAY) :
    ∃ d1 d2 d3 d4 d5 d6 d7,
      sendSingleWebhook (some ({} : WebhookDelivery)) (HttpResult.response 500 "") t1 =
        WebhookStepResult.retryImmediate d1 ∧
      sendSingleWebhook (some d1) (HttpResult.response 500 "") t2 =
        WebhookStepResult.retryImmediate d2 ∧
      sendSingleWebhook (some d2) (HttpResult.response 500 "") t3 =
        WebhookStepResult.retryImmediate d3 ∧
      sendSingleWebhook (some d3) (HttpResult.response 500 "") t4 =
        WebhookStepResult.retryImmediate d4 ∧
      sendSingleWebhook (some d4) (HttpResult.response 500 "") t5 =
        WebhookStepResult.retryImmediate d5 ∧
      sendSingleWebhook (some d5) (HttpResult.response 500 "") t6 =
        WebhookStepResult.retryDelayed 60 d6 ∧
      sendSingleWebhook (some d6) (HttpResult.response 200 "") t7 =
        WebhookStepResult.acknowledged d7 ∧
      d6.attemptCount = 6 ∧ d7.attemptCount = 7 ∧ d7.status = WebhookStatus.acknowledged := by
  refine ⟨
    { status := WebhookStatus.retrying, attemptCount := 1, immediateAttempts := 1,
      lastAttemptAt := some t1, responseStatusCode := some 500, responseBody := some "",
      errorMessage := some "HTTP error 500", createdAt := 0 },
    { status := WebhookStatus.retrying, attemptCount := 2, immediateAttempts := 2,
      lastAttemptAt := some t2, responseStatusCode := some 500, responseBody := some "",
      errorMessage := some "HTTP error 500", createdAt := 0 },
    { status := WebhookStatus.retrying, attemptCount := 3, immediateAttempts := 3,
      lastAttemptAt := some t3, responseStatusCode := some 500, responseBody := some "",
      errorMessage := some "HTTP error 500", createdAt := 0 },
    { status := WebhookStatus.retrying, attemptCount := 4, immediateAttempts := 4,
      lastAttemptAt := some t4, responseStatusCode := some 500, responseBody := some "",
      errorMessage := some "HTTP error 500", createdAt := 0 },
    { status := WebhookStatus.retrying, attemptCount := 5, immediateAttempts := 5,
      lastAttemptAt := some t5, responseStatusCode := some 500, responseBody := some "",
      errorMessage := some "HTTP error 500", createdAt := 0 },
    { status := WebhookStatus.retrying, attemptCount := 6, immediateAttempts := 6,
      lastAttemptAt := some t6, nextRetryAt := some (t6 + 60),
      responseStatusCode := some 500, responseBody := some "",
      errorMessage := some "HTTP error 500", createdAt := 0 },
    { status := WebhookStatus.acknowledged, attemptCount := 7, immediateAttempts := 6,
      lastAttemptAt := some t7, nextRetryAt := some (t6 + 60), acknowledgedAt := some t7,
      responseStatusCode := some 200, responseBody := some "",
      errorMessage := some "HTTP error 500", createdAt := 0 },
    rfl, rfl, rfl, rfl, rfl, ?_, rfl, rfl, rfl, rfl⟩
  have h6 : t6 + 60 ≤ 10800 := h
  norm_num [sendSingleWebhook, webhookFailurePath, IMMEDIATE_ATTEMPTS, INITIAL_RETRY_DELAY,
    MAX_RETRY_DELAY, BACKOFF_MULTIPLIER, truncateResponseBody]
  rw [if_neg (by omega : ¬ (10800 < t6 + 60))]
  rfl

/-- C6 witness: the scenario evaluated at concrete timestamps. -/
theorem c6_six_failures_then_ack_witness :
    ∃ d1 d2 d3 d4 d5 d6 d7,
      sendSingleWebhook (some ({} : WebhookDelivery)) (HttpResult.response 500 "") 0 =
        WebhookStepResult.retryImmediate d1 ∧
      sendSingleWebhook (some d1) (HttpResult.response 500 "") 1 =
        WebhookStepResult.retryImmediate d2 ∧
      sendSingleWebhook (some d2) (HttpResult.response 500 "") 2 =
        WebhookStepResult.retryImmediate d3 ∧
      sendSingleWebhook (some d3) (HttpResult.response 500 "") 3 =
        WebhookStepResult.retryImmediate d4 ∧
      sendSingleWebhook (some d4) (HttpResult.response 500 "") 4 =
        WebhookStepResult.retryImmediate d5 ∧
      sendSingleWebhook (some d5) (HttpResult.response 500 "") 5 =
        WebhookStepResult.retryDelayed 60 d6 ∧
      sendSingleWebhook (some d6) (HttpResult.response 200 "") 65 =
        WebhookStepResult.acknowledged d7 ∧
      d6.attemptCount = 6 ∧ d7.attemptCount = 7 ∧ d7.status = WebhookStatus.acknowledged :=
  c6_six_failures_then_ack 0 1 2 3 4 5 65 (by decide)

/-- The failure tail's scheduling decision and resulting status depend only on
the counters, the creation time and the immediate flag, not on the recorded
response fields. -/
theorem webhookFailurePath_shape (da db : WebhookDelivery) (b : Bool) (now : Nat)
    (h0 : da.status = db.status)
    (h1 : da.immediateAttempts = db.immediateAttempts)
    (h2 : da.attemptCount = db.attemptCount)
    (h3 : da.createdAt = db.createdAt) :
    (webhookFailurePath da b now).scheduledDelay =
      (webhookFailurePath db b now).scheduledDelay ∧
    ((webhookFailurePath da b now).deliveryState.map WebhookDelivery.status) =
      ((webhookFailurePath db b now).deliveryState.map WebhookDelivery.status) := by
  simp only [webhookFailurePath]
  rw [h1, h2, h3]
  by_cases hc1 : b = true ∧ db.immediateAttempts < IMMEDIATE_ATTEMPTS
  · simp only [if_pos hc1]
    exact ⟨rfl, rfl⟩
  · simp only [if_neg hc1]
    by_cases hc2 : IMMEDIATE_ATTEMPTS ≤ db.immediateAttempts
    · simp only [if_pos hc2]
      by_cases hc3 : MAX_RETRY_DELAY < now - db.createdAt +
          min (INITIAL_RETRY_DELAY * BACKOFF_MULTIPLIER ^ (db.attemptCount - IMMEDIATE_ATTEMPTS))
            MAX_RETRY_DELAY
      · simp only [if_pos hc3]
        exact ⟨rfl, rfl⟩
      · simp only [if_neg hc3]
        exact ⟨rfl, rfl⟩
    · simp only [if_neg hc2]
      refine ⟨rfl, ?_⟩
      simp [WebhookStepResult.deliveryState, h0]

/-- The failure tail marks FAILED only when the budget check fired. -/
theorem webhookFailurePath_markedFailed (d : WebhookDelivery) (b : Bool) (now : Nat)
    (d2 : WebhookDelivery)
    (h : webhookFailurePath d b now = WebhookStepResult.markedFailed d2) :
    MAX_RETRY_DELAY < now - d.createdAt +
      min (INITIAL_RETRY_DELAY * BACKOFF_MULTIPLIER ^ (d.attemptCount - IMMEDIATE_ATTEMPTS))
        MAX_RETRY_DELAY := by
  simp only [webhookFailurePath] at h
  split at h
  · simp at h
  · split at h
    · split at h
      · rename_i hb
        exact hb
      · simp at h
    · simp at h

/-- C2 amended: the webhook delivery task has no 4xx short-circuit — a 4xx
response (429 or not) is handled exactly like a 5xx: same scheduling decision
and same resulting row status; in particular a first-attempt 404 yields
RETRYING with an immediate re-attempt (see the counterexample), and a non-200
response produces FAILED only when the 3-hour budget check fires, never from
the status code alone. -/
theorem c2_amended (d : WebhookDelivery) (now code : Nat) (body bodyB : String)
    (hcode : code ≠ 200) :
    (sendSingleWebhook (some d) (HttpResult.response code body) now).scheduledDelay =
      (sendSingleWebhook (some d) (HttpResult.response 500 bodyB) now).scheduledDelay ∧
    ((sendSingleWebhook (some d) (HttpResult.response code body) now).deliveryState.map
        WebhookDelivery.status) =
      ((sendSingleWebhook (some d) (HttpResult.response 500 bodyB) now).deliveryState.map
        WebhookDelivery.status) ∧
    (∀ d2, sendSingleWebhook (some d) (HttpResult.response code body) now =
        WebhookStepResult.markedFailed d2 →
      MAX_RETRY_DELAY < now - d.createdAt + nextBackoffDelay d) := by
  have h500 : ¬ (500 : Nat) = 200 := by decide
  by_cases hack : d.status = WebhookStatus.acknowledged
  · refine ⟨?_, ?_, ?_⟩
    · simp [sendSingleWebhook, hack]
    · simp [sendSingleWebhook, hack]
    · intro d2 h
      simp [sendSingleWebhook, hack] at h
  · refine ⟨?_, ?_, ?_⟩
    · simp only [sendSingleWebhook, if_neg hack, if_neg hcode, if_neg h500]
      split_ifs <;>
        · refine (webhookFailurePath_shape _ _ _ _ ?_ ?_ ?_ ?_).1 <;> rfl
    · simp only [sendSingleWebhook, if_neg hack, if_neg hcode, if_neg h500]
      split_ifs <;>
        · refine (webhookFailurePath_shape _ _ _ _ ?_ ?_ ?_ ?_).2 <;> rfl
    · intro d2 h
      rcases Nat.lt_or_ge d.immediateAttempts IMMEDIATE_ATTEMPTS with hlt | hge
      · simp only [sendSingleWebhook, if_neg hack, hlt, if_true, if_neg hcode] at h
        have hb := webhookFailurePath_markedFailed _ _ _ _ h
        simpa [nextBackoffDelay] using hb
      · have hnlt : ¬ d.immediateAttempts < IMMEDIATE_ATTEMPTS := by omega
        simp only [sendSingleWebhook, if_neg hack, if_neg hnlt, if_neg hcode] at h
        have hb := webhookFailurePath_markedFailed _ _ _ _ h
        simpa [nextBackoffDelay] using hb

/-- C2 amended witness: a concrete 404 and a concrete 500 on a fresh row get
the same treatment. -/
theorem c2_amended_witness :
    (sendSingleWebhook (some ({} : WebhookDelivery)) (HttpResult.response 404 "nf")
        3).scheduledDelay =
      (sendSingleWebhook (some ({} : WebhookDelivery)) (HttpResult.response 500 "boom")
        3).scheduledDelay :=
  (c2_amended {} 3 404 "nf" "boom" (by decide)).1

/-- C1 counterexample: a CANCELLED notification whose external_id matches an
inbound "delivered" callback is moved to DELIVERED by the inbound handler —
CANCELLED is not absorbing under inbound events, because the handler applies
its status mapping without checking the current status. -/
theorem c1_counterexample :
    ((receiveMsg91Webhook
        { notifications := [{ status := NotificationStatus.cancelled,
                              externalId := some [("unique_id", "u1")] }] }
        { uniqueId := some "u1", eventTitle := "delivered" } 0).notifications.map
      Notification.status) = [NotificationStatus.delivered] ∧
    NotificationStatus.delivered ≠ NotificationStatus.cancelled := by
  decide

/-- C1 amended: DELIVERED and CANCELLED are absorbing for the dispatcher (a
re-run returns without touching the row), but the inbound handler applies its
mapping to any matched notification regardless of status; inbound events
leave a notification untouched only when it cannot be matched — in particular
a notification whose external_id was never set (one cancelled before a
provider accepted it) is never mutated by an inbound event. -/
theorem c1_amended :
    (∀ (n : Notification) (tid : Option String) (env : ProviderEnv)
        (resp : ProviderResponse) (now : Nat),
      n.status = NotificationStatus.delivered ∨ n.status = NotificationStatus.cancelled →
      sendNotificationUnit (some n) tid env resp now = DispatchResult.alreadyProcessed n) ∧
    (∀ (s : InboundState) (e : InboundEvent) (now : Nat),
      (∀ n ∈ s.notifications, n.externalId = none) →
      (receiveMsg91Webhook s e now).notifications = s.notifications) := by
  constructor
  · intro n tid env resp now h
    have hns : ¬ (n.status = NotificationStatus.pending ∨
        n.status = NotificationStatus.queued) := by
      rcases h with h | h <;> rw [h] <;> rintro (hc | hc) <;> exact absurd hc (by decide)
    simp [sendNotificationUnit, hns]
  · intro s e now h
    have hmatch : findFirstMatch e s.notifications = none :=
      findFirstMatch_eq_none e s.notifications
        (fun n hn => matchesEvent_of_no_externalId e n (h n hn))
    by_cases hp : isWebhookProcessed s.store (generateWebhookKey e now) now = true
    · simp [receiveMsg91Webhook, hp]
    · simp only [Bool.not_eq_true] at hp
      simp [receiveMsg91Webhook, hp, hmatch]

/-- C1 amended witness: a concrete delivered notification is left untouched by
a dispatcher re-run, and a concrete inbound event leaves a table whose only
row has no external_id unchanged. -/
theorem c1_amended_witness :
    sendNotificationUnit (some { status := NotificationStatus.delivered }) none
        { byId := fun _ => none } { success := true } 0 =
      DispatchResult.alreadyProcessed { status := NotificationStatus.delivered } ∧
    (receiveMsg91Webhook { notifications := [{ status := NotificationStatus.cancelled }] }
        { uniqueId := some "u1", eventTitle := "delivered" } 7).notifications =
      [{ status := NotificationStatus.cancelled }] :=
  ⟨c1_amended.1 { status := NotificationStatus.delivered } none
      { byId := fun _ => none } { success := true } 0 (Or.inl rfl),
   c1_amended.2 { notifications := [{ status := NotificationStatus.cancelled }] }
      { uniqueId := some "u1", eventTitle := "delivered" } 7
      (by intro n hn; simp at hn; rw [hn])⟩

/-- C3 counterexample: for a notification carrying an explicit provider_id
that resolves to no provider, the dispatcher neither raises
ProviderNotFoundError nor fails without a retry — the attempted fallback
lookup crashes (ProviderRepository has no get_active_providers), the row is
marked FAILED with that AttributeError text, and the task schedules a
5-minute retry. -/
theorem c3_counterexample :
    (sendNotificationTask 0
        (some { status := NotificationStatus.pending, type := NotificationType.sms,
                providerId := some 99 })
        none { byId := fun _ => none } { success := true } 0).scheduledRetryDelay =
      some 5 ∧
    (sendNotificationTask 0
        (some { status := NotificationStatus.pending, type := NotificationType.sms,
                providerId := some 99 })
        none { byId := fun _ => none } { success := true } 0).dispatch.raisedError =
      some ("Failed to send notification: " ++ getActiveProvidersError) := by
  decide

/-- update_status never touches provider_id. -/
theorem updateStatus_providerId (n : Notification) (st : NotificationStatus)
    (err : Option String) (extId : Option (List (String × String))) (now : Nat) :
    (updateStatus n st err extId now).providerId = n.providerId := by
  unfold updateStatus
  cases extId <;> split_ifs <;> (try cases err) <;> rfl

/-- update_status never touches the task id. -/
theorem updateStatus_taskId (n : Notification) (st : NotificationStatus)
    (err : Option String) (extId : Option (List (String × String))) (now : Nat) :
    (updateStatus n st err extId now).taskId = n.taskId := by
  unfold updateStatus
  cases extId <;> split_ifs <;> (try cases err) <;> rfl

/-- When no explicit provider resolves, the fallback lookup raises
AttributeError and the run marks the row FAILED and re-raises the wrapped
error. -/
theorem resolutionFailureRaised (n : Notification) (tid : Option String)
    (byId : Nat → Option Provider) (resp : ProviderResponse) (now : Nat)
    (hstat : n.status = NotificationStatus.pending)
    (hexp : match n.providerId with
            | some pid => byId pid = none
            | none => True) :
    ∃ n2 a, sendNotificationUnit (some n) tid { byId := byId } resp now =
        DispatchResult.raised n2 a
          ("Failed to send notification: " ++ getActiveProvidersError) ∧
      n2.status = NotificationStatus.failed := by
  refine ⟨updateStatus (updateStatus (match tid with
        | some t => { n with taskId := some t }
        | none => n) NotificationStatus.sending none none now)
      NotificationStatus.failed (some getActiveProvidersError) none now,
    { status := NotificationStatus.failed, errorMessage := some getActiveProvidersError,
      attemptedAt := now },
    ?_, updateStatus_status _ _ _ _ _⟩
  cases tid <;> cases hpid : n.providerId <;> simp only [hpid] at hexp <;>
    simp [sendNotificationUnit, hstat, hpid, hexp, updateStatus_providerId]

/-- C3 amended: provider resolution failure raises neither
ProviderNotFoundError nor any fallback send — when the explicit provider_id
is unset or resolves to nothing, the dispatcher attempts a fallback through
provider_repo.get_active_providers, a method ProviderRepository does not
define, so the run fails with that AttributeError: the notification is marked
FAILED with the error text and, while celery retries remain, a retry IS
scheduled with the escalating delay; that scheduled retry is a no-op because
a FAILED row is not re-processed, so the failure is effectively terminal
after the first failing run. -/
theorem c3_amended :
    (∀ (n : Notification) (tid : Option String) (byId : Nat → Option Provider)
        (resp : ProviderResponse) (now : Nat),
      n.status = NotificationStatus.pending →
      (match n.providerId with
       | some pid => byId pid = none
       | none => True) →
      (sendNotificationUnit (some n) tid { byId := byId } resp now).isRaised = true ∧
      ((sendNotificationUnit (some n) tid { byId := byId } resp
          now).notificationState.map Notification.status) =
        some NotificationStatus.failed ∧
      (sendNotificationUnit (some n) tid { byId := byId } resp now).raisedError =
        some ("Failed to send notification: " ++ getActiveProvidersError)) ∧
    (∀ (retries : Nat) (n : Notification) (tid : Option String)
        (byId : Nat → Option Provider) (resp : ProviderResponse) (now : Nat),
      retries < MAX_RETRIES →
      n.status = NotificationStatus.pending →
      (match n.providerId with
       | some pid => byId pid = none
       | none => True) →
      (sendNotificationTask retries (some n) tid { byId := byId } resp
          now).scheduledRetryDelay =
        some (RETRY_DELAYS.getD (min retries (RETRY_DELAYS.length - 1)) 0)) ∧
    (∀ (n : Notification) (tid : Option String) (env : ProviderEnv)
        (resp : ProviderResponse) (now : Nat),
      n.status = NotificationStatus.failed →
      sendNotificationUnit (some n) tid env resp now = DispatchResult.alreadyProcessed n) := by
  refine ⟨?_, ?_, ?_⟩
  · intro n tid byId resp now hstat hexp
    obtain ⟨n2, a, heq, hst⟩ := resolutionFailureRaised n tid byId resp now hstat hexp
    rw [heq]
    simp [DispatchResult.isRaised, DispatchResult.notificationState,
      DispatchResult.raisedError, hst]
  · intro retries n tid byId resp now hret hstat hexp
    obtain ⟨n2, a, heq, hst⟩ := resolutionFailureRaised n tid byId resp now hstat hexp
    simp [sendNotificationTask, heq, hret, TaskOutcome.scheduledRetryDelay]
  · intro n tid env resp now hstat
    have hns : ¬ (n.status = NotificationStatus.pending ∨
        n.status = NotificationStatus.queued) := by
      rw [hstat]
      rintro (hc | hc) <;> exact absurd hc (by decide)
    simp [sendNotificationUnit, hns]

/-- C3 amended witness: the concrete resolution failure (explicit id unset),
its scheduled 5-minute retry, and the no-op re-run of the FAILED row. -/
theorem c3_amended_witness :
    (sendNotificationUnit
        (some { status := NotificationStatus.pending, type := NotificationType.sms })
        none { byId := fun _ => none } { success := true } 0).raisedError =
      some ("Failed to send notification: " ++ getActiveProvidersError) ∧
    (sendNotificationTask 0
        (some { status := NotificationStatus.pending, type := NotificationType.sms })
        none { byId := fun _ => none } { success := true } 0).scheduledRetryDelay =
      some 5 ∧
    sendNotificationUnit (some { status := NotificationStatus.failed }) none
        { byId := fun _ => none } { success := true } 0 =
      DispatchResult.alreadyProcessed { status := NotificationStatus.failed } :=
  ⟨(c3_amended.1 _ none (fun _ => none) { success := true } 0 rfl (by simp)).2.2,
   c3_amended.2.1 0 _ none (fun _ => none) { success := true } 0 (by decide) rfl (by simp),
   c3_amended.2.2 _ none { byId := fun _ => none } { success := true } 0 rfl⟩

/-- C4 counterexample: revoking a PENDING notification that has a PENDING
WebhookDelivery succeeds, yet the delivery row is left PENDING (not FAILED)
and no "cancelled" webhook event is enqueued — the endpoint only rewrites the
notification's status. -/
theorem c4_counterexample :
    (revokeNotificationEndpoint (some { status := NotificationStatus.pending }) true
        [{ status := WebhookStatus.pending }] 5).result.isRevoked = true ∧
    (revokeNotificationEndpoint (some { status := NotificationStatus.pending }) true
        [{ status := WebhookStatus.pending }] 5).deliveries =
      [{ status := WebhookStatus.pending }] ∧
    (revokeNotificationEndpoint (some { status := NotificationStatus.pending }) true
        [{ status := WebhookStatus.pending }] 5).emittedEvents = [] ∧
    WebhookStatus.pending ≠ WebhookStatus.failed := by
  decide

/-- C4 amended: the revoke endpoint rejects exactly when the notification is
already DELIVERED or CANCELLED (so any other status, including FAILED, is
cancellable) and otherwise transitions it to CANCELLED; but it leaves every
WebhookDelivery row untouched, enqueues no "cancelled" webhook event, and the
"Revoked by user" text is dropped (update_status only stores error text on
its FAILED branch). -/
theorem c4_amended (n : Notification) (deliveries : List WebhookDelivery) (now : Nat) :
    ((n.status = NotificationStatus.delivered ∨ n.status = NotificationStatus.cancelled) →
      revokeNotification (some n) true now = RevokeResult.rejected n.status) ∧
    (¬ (n.status = NotificationStatus.delivered ∨ n.status = NotificationStatus.cancelled) →
      ∃ n2, revokeNotification (some n) true now = RevokeResult.revoked n2 ∧
        n2.status = NotificationStatus.cancelled ∧ n2.errorMessage = n.errorMessage) ∧
    (revokeNotificationEndpoint (some n) true deliveries now).deliveries = deliveries ∧
    (revokeNotificationEndpoint (some n) true deliveries now).emittedEvents = [] := by
  refine ⟨?_, ?_, rfl, rfl⟩
  · intro h
    simp [revokeNotification, h]
  · intro h
    refine ⟨updateStatus n NotificationStatus.cancelled (some "Revoked by user") none now,
      ?_, updateStatus_status _ _ _ _ _, ?_⟩
    · simp [revokeNotification, h]
    · unfold updateStatus
      split_ifs with h1 h2 h3 <;> simp_all

/-- C4 amended witness: a FAILED notification is cancellable and the endpoint
touches nothing else. -/
theorem c4_amended_witness :
    (∃ n2, revokeNotification (some { status := NotificationStatus.failed }) true 9 =
        RevokeResult.revoked n2 ∧ n2.status = NotificationStatus.cancelled ∧
        n2.errorMessage = ({ status := NotificationStatus.failed } : Notification).errorMessage) ∧
    (revokeNotificationEndpoint (some { status := NotificationStatus.failed }) true
        [{ status := WebhookStatus.retrying }] 9).deliveries =
      [{ status := WebhookStatus.retrying }] :=
  ⟨(c4_amended { status := NotificationStatus.failed } [{ status := WebhookStatus.retrying }]
      9).2.1 (by rintro (h | h) <;> exact absurd h (by decide)),
   (c4_amended { status := NotificationStatus.failed } [{ status := WebhookStatus.retrying }]
      9).2.2.1⟩

/-- Provider environment of the C5 scenario: the notification's explicit
provider_id 7 resolves to the mock provider, so the run reaches the provider
invocation without touching the broken fallback. -/
def c5Env : ProviderEnv :=
  { byId := fun pid => if pid = 7 then some { name := "mock" } else none }

/-- A provider send that reports failure. -/
def c5Response : ProviderResponse :=
  { success := false, errorMessage := some "boom" }

/-- The notification row after the first failing dispatcher run of the C5
scenario. -/
def c5FailedNotification : Notification :=
  { status := NotificationStatus.failed, type := NotificationType.sms,
    providerId := some 7, errorMessage := some "Provider failed: boom", retryCount := 0,
    taskId := some "t1", updatedAt := 10, sentAt := some 10, failedAt := some 10 }

/-- The single DeliveryAttempt row the first failing run appends. -/
def c5Attempt : DeliveryAttempt :=
  { status := NotificationStatus.failed, providerName := some "mock",
    errorMessage := some "Provider failed: boom", attemptedAt := 10 }

/-- C5 at its failing input: the FIRST failing provider invocation already
marks the notification FAILED (error_message populated with the provider
error, not a max-retries message) and schedules a 5-minute retry; the retried
run then sees the FAILED status and returns without doing anything, so the
chain stops after one provider invocation with retry_count still 0 and exactly
one DeliveryAttempt row — never reaching retry_count == 3, four attempts, or
mark_notification_failed (increment_retry_count has no caller at all). -/
theorem c5_first_failure_terminal :
    sendNotificationTask 0
        (some { status := NotificationStatus.pending, type := NotificationType.sms,
                providerId := some 7 })
        (some "t1") c5Env c5Response 10 =
      TaskOutcome.retryScheduled 5
        (DispatchResult.raised c5FailedNotification c5Attempt
          "Failed to send notification: Provider failed: boom") ∧
    sendNotificationTask 1 (some c5FailedNotification) (some "t2") c5Env c5Response 400 =
      TaskOutcome.completed (DispatchResult.alreadyProcessed c5FailedNotification) ∧
    c5FailedNotification.status = NotificationStatus.failed ∧
    c5FailedNotification.retryCount = 0 ∧
    c5FailedNotification.errorMessage = some "Provider failed: boom" := by
  decide

/-- C8 counterexample: with the service's default arguments (no explicit
deduplication window), creating an exact duplicate of a PENDING notification
created at the same instant succeeds and stores a second row — no
ValidationException is raised, because the duplicate check requires an
explicitly supplied window. -/
theorem c8_counterexample :
    (createNotification
        [{ status := NotificationStatus.pending, type := NotificationType.sms,
           recipient := "r", content := "c", createdAt := 100 }]
        NotificationType.sms "r" "c" none none true none 100).isValidationError = false ∧
    (createNotification
        [{ status := NotificationStatus.pending, type := NotificationType.sms,
           recipient := "r", content := "c", createdAt := 100 }]
        NotificationType.sms "r" "c" none none true none 100).tableLength = some 2 := by
  decide

/-- The claim's duplicate condition as a proposition: some stored notification
has the same channel, recipient and content (and subject, for email with a
non-empty subject), was created inside the window, and is not FAILED. -/
def RecentDuplicateExists (existing : List Notification) (messageType : NotificationType)
    (recipient content : String) (subject : Option String) (windowMinutes now : Nat) : Prop :=
  ∃ n, n ∈ existing ∧ n.recipient = recipient ∧ n.type = messageType ∧
    n.content = content ∧ now ≤ n.createdAt + windowMinutes * 60 ∧
    n.status ≠ NotificationStatus.failed ∧
    (messageType = NotificationType.email ∧ subjectTruthy subject = true →
      n.subject = subject)

/-- The repository duplicate query decides exactly the claim's duplicate
condition. -/
theorem isDuplicate_iff (existing : List Notification) (ntype : NotificationType)
    (recipient content : String) (subject : Option String) (w now : Nat) :
    isDuplicateNotification existing ntype recipient content subject w now = true ↔
      RecentDuplicateExists existing ntype recipient content subject w now := by
  unfold isDuplicateNotification RecentDuplicateExists
  rw [List.any_eq_true]
  refine exists_congr fun n => and_congr_right fun _ => ?_
  simp only [Bool.and_eq_true, beq_iff_eq, bne_iff_ne, decide_eq_true_eq]
  constructor
  · rintro ⟨⟨⟨⟨⟨h1, h2⟩, h3⟩, h4⟩, h5⟩, h6⟩
    refine ⟨h1, h2, h3, h4, h5, fun hc => ?_⟩
    rw [if_pos hc] at h6
    exact beq_iff_eq.mp h6
  · rintro ⟨h1, h2, h3, h4, h5, h6⟩
    refine ⟨⟨⟨⟨⟨h1, h2⟩, h3⟩, h4⟩, h5⟩, ?_⟩
    by_cases hc : ntype = NotificationType.email ∧ subjectTruthy subject = true
    · rw [if_pos hc]
      exact beq_iff_eq.mpr (h6 hc)
    · rw [if_neg hc]

/-- C8 amended: the duplicate guard runs only when a deduplication window is
explicitly supplied — with the default (none) creation never raises the
duplicate ValidationException, so the class-level 30-minute default window is
never engaged on this path; when a window IS supplied, creation is rejected
exactly when a non-FAILED notification with the same channel, recipient and
content (and subject, for email) exists within the window. -/
theorem c8_amended (existing : List Notification) (ntype : NotificationType)
    (recipient content : String) (subject : Option String) (pid : Option Nat) (now : Nat) :
    ((createNotification existing ntype recipient content subject pid true none
        now).isValidationError = false) ∧
    (∀ w, (createNotification existing ntype recipient content subject pid true (some w)
        now).isValidationError = true ↔
      RecentDuplicateExists existing ntype recipient content subject w now) := by
  constructor
  · unfold createNotification
    split_ifs <;> simp [CreateResult.isValidationError]
  · intro w
    have hb : (createNotification existing ntype recipient content subject pid true (some w)
        now).isValidationError =
        isDuplicateNotification existing ntype recipient content subject w now := by
      unfold createNotification
      by_cases hd : isDuplicateNotification existing ntype recipient content subject w now =
          true
      · simp [hd, CreateResult.isValidationError]
      · simp only [Bool.not_eq_true] at hd
        simp only [hd, Bool.false_eq_true, if_false]
        split_ifs <;> simp [CreateResult.isValidationError]
    rw [hb]
    exact isDuplicate_iff existing ntype recipient content subject w now

/-- C8 amended witness: the guard engages with an explicit window (the
duplicate above is rejected) and never with the default. -/
theorem c8_amended_witness :
    (createNotification
        [{ status := NotificationStatus.pending, type := NotificationType.sms,
           recipient := "r", content := "c", createdAt := 100 }]
        NotificationType.sms "r" "c" none none true (some 30) 100).isValidationError =
      true ∧
    (createNotification [] NotificationType.sms "r" "c" none none true none
        0).isValidationError = false :=
  ⟨((c8_amended
      [{ status := NotificationStatus.pending, type := NotificationType.sms,
         recipient := "r", content := "c", createdAt := 100 }]
      NotificationType.sms "r" "c" none none 100).2 30).mpr
      ⟨{ status := NotificationStatus.pending, type := NotificationType.sms,
         recipient := "r", content := "c", createdAt := 100 },
       by decide, rfl, rfl, rfl, by decide, by decide, by decide⟩,
   (c8_amended [] NotificationType.sms "r" "c" none none 0).1⟩

/-- C9 counterexample: two identical inbound callbacks processed 300 seconds
apart — well inside 3 hours — BOTH mutate state (two DeliveryAttempt rows,
delivered_at rewritten by the replay), because the dedup key embeds the
minute-truncated processing time, so the second arrival computes a different
key. -/
theorem c9_counterexample :
    ((receiveMsg91Webhook (receiveMsg91Webhook
        { notifications := [{ status := NotificationStatus.queued,
                              externalId := some [("unique_id", "u1")] }] }
        { uniqueId := some "u1", eventTitle := "delivered" } 0)
        { uniqueId := some "u1", eventTitle := "delivered" } 300).attempts.length = 2) ∧
    ((receiveMsg91Webhook (receiveMsg91Webhook
        { notifications := [{ status := NotificationStatus.queued,
                              externalId := some [("unique_id", "u1")] }] }
        { uniqueId := some "u1", eventTitle := "delivered" } 0)
        { uniqueId := some "u1", eventTitle := "delivered" } 300).notifications.map
      Notification.deliveredAt) = [some 300] ∧
    (300 : Nat) < 10800 := by
  decide

/-- A callback whose key is still marked processed is discarded with no
mutation at all. -/
theorem receive_processed (s : InboundState) (e : InboundEvent) (now : Nat)
    (h : isWebhookProcessed s.store (generateWebhookKey e now) now = true) :
    receiveMsg91Webhook s e now = s := by
  simp [receiveMsg91Webhook, h]

/-- A callback that is not discarded marks its key with the 3-hour TTL. -/
theorem store_after_receive (s : InboundState) (e : InboundEvent) (t1 : Nat)
    (h0 : isWebhookProcessed s.store (generateWebhookKey e t1) t1 = false) :
    (receiveMsg91Webhook s e t1).store.entries =
      (generateWebhookKey e t1, t1 + 10800) :: s.store.entries := by
  simp only [receiveMsg91Webhook, h0, Bool.false_eq_true, if_false]
  split_ifs with hids
  · rfl
  · cases hm : findFirstMatch e s.notifications <;>
      simp [hm, markWebhookProcessed]

/-- The dedup key is insensitive to the processing time inside one minute. -/
theorem webhookKey_same_minute (e : InboundEvent) (t1 t2 : Nat) (h : t1 / 60 = t2 / 60) :
    generateWebhookKey e t2 = generateWebhookKey e t1 := by
  unfold generateWebhookKey
  rw [← h]

/-- C9 amended: a replayed identical callback is discarded without mutation
only when its processing time truncates to the same minute as the original's
(the dedup key embeds the minute) and the original's 3-hour key TTL has not
expired; under those conditions the replay returns the state unchanged. -/
theorem c9_amended (s : InboundState) (e : InboundEvent) (t1 t2 : Nat)
    (h0 : isWebhookProcessed s.store (generateWebhookKey e t1) t1 = false)
    (h1 : t1 / 60 = t2 / 60) (h2 : t2 < t1 + 10800) :
    receiveMsg91Webhook (receiveMsg91Webhook s e t1) e t2 = receiveMsg91Webhook s e t1 := by
  have hst := store_after_receive s e t1 h0
  apply receive_processed
  rw [webhookKey_same_minute e t1 t2 h1]
  simp only [isWebhookProcessed, hst, List.any_cons]
  simp [h2]

/-- C9 amended witness: a same-minute replay at concrete inputs is a no-op. -/
theorem c9_amended_witness :
    receiveMsg91Webhook (receiveMsg91Webhook
        { notifications := [{ status := NotificationStatus.queued,
                              externalId := some [("unique_id", "u1")] }] }
        { uniqueId := some "u1", eventTitle := "delivered" } 10)
        { uniqueId := some "u1", eventTitle := "delivered" } 30 =
      receiveMsg91Webhook
        { notifications := [{ status := NotificationStatus.queued,
                              externalId := some [("unique_id", "u1")] }] }
        { uniqueId := some "u1", eventTitle := "delivered" } 10 :=
  c9_amended
    { notifications := [{ status := NotificationStatus.queued,
                          externalId := some [("unique_id", "u1")] }] }
    { uniqueId := some "u1", eventTitle := "delivered" } 10 30 (by decide) (by decide)
    (by decide)

/-- A successful provider send leaves the notification QUEUED. -/
theorem dispatchSend_sent_status (n2 : Notification) (att0 : DeliveryAttempt) (p : Provider)
    (resp : ProviderResponse) (now : Nat) (n : Notification) (a : DeliveryAttempt)
    (h : dispatchSend n2 att0 p resp now = DispatchResult.sent n a) :
    n.status = NotificationStatus.queued := by
  simp only [dispatchSend] at h
  split at h
  · rename_i hs
    simp only [DispatchResult.sent.injEq] at h
    obtain ⟨hn, -⟩ := h
    rw [← hn]
    exact updateStatus_status _ _ _ _ _
  · simp at h

/-- A failed provider send leaves the notification FAILED when the run
re-raises. -/
theorem dispatchSend_raised_status (n2 : Notification) (att0 : DeliveryAttempt) (p : Provider)
    (resp : ProviderResponse) (now : Nat) (n : Notification) (a : DeliveryAttempt)
    (e : String) (h : dispatchSend n2 att0 p resp now = DispatchResult.raised n a e) :
    n.status = NotificationStatus.failed := by
  simp only [dispatchSend] at h
  split at h
  · simp at h
  · simp only [DispatchResult.raised.injEq] at h
    obtain ⟨hn, -, -⟩ := h
    rw [← hn]
    exact updateStatus_status _ _ _ _ _

/-- C10: a dispatcher run that mutates the row never writes DELIVERED — a
successful provider invocation sets QUEUED and a failing one FAILED; the
terminal marking task writes FAILED and revocation writes CANCELLED; DELIVERED
is produced only by the inbound handler's status mapping for the "delivered"
event. -/
theorem c10_success_writes_queued :
    (∀ (row : Option Notification) (tid : Option String) (env : ProviderEnv)
        (resp : ProviderResponse) (now : Nat) (n : Notification) (a : DeliveryAttempt),
      sendNotificationUnit row tid env resp now = DispatchResult.sent n a →
      n.status = NotificationStatus.queued) ∧
    (∀ (row : Option Notification) (tid : Option String) (env : ProviderEnv)
        (resp : ProviderResponse) (now : Nat) (n : Notification) (a : DeliveryAttempt)
        (e : String),
      sendNotificationUnit row tid env resp now = DispatchResult.raised n a e →
      n.status = NotificationStatus.failed) ∧
    (∀ (row : Option Notification) (em : String) (now : Nat) (n : Notification)
        (a : DeliveryAttempt),
      markNotificationFailed row em now = some (n, a) →
      n.status = NotificationStatus.failed) ∧
    (∀ (row : Option Notification) (auth : Bool) (now : Nat) (n : Notification),
      revokeNotification row auth now = RevokeResult.revoked n →
      n.status = NotificationStatus.cancelled) ∧
    statusMapping "delivered" = some NotificationStatus.delivered := by
  refine ⟨?_, ?_, ?_, ?_, rfl⟩
  · intro row tid env resp now n a h
    cases row with
    | none => simp [sendNotificationUnit] at h
    | some n0 =>
      simp only [sendNotificationUnit] at h
      split at h
      · simp at h
      · split at h
        · simp at h
        · split at h
          · simp at h
          · exact dispatchSend_sent_status _ _ _ _ _ _ _ h
  · intro row tid env resp now n a e h
    cases row with
    | none => simp [sendNotificationUnit] at h
    | some n0 =>
      simp only [sendNotificationUnit] at h
      split at h
      · simp at h
      · split at h
        · simp only [DispatchResult.raised.injEq] at h
          obtain ⟨hn, -, -⟩ := h
          rw [← hn]
          exact updateStatus_status _ _ _ _ _
        · split at h
          · simp only [DispatchResult.raised.injEq] at h
            obtain ⟨hn, -, -⟩ := h
            rw [← hn]
            exact updateStatus_status _ _ _ _ _
          · exact dispatchSend_raised_status _ _ _ _ _ _ _ _ h
  · intro row em now n a h
    cases row with
    | none => simp [markNotificationFailed] at h
    | some n0 =>
      simp only [markNotificationFailed, Option.some.injEq, Prod.mk.injEq] at h
      obtain ⟨hn, -⟩ := h
      rw [← hn]
      exact updateStatus_status _ _ _ _ _
  · intro row auth now n h
    cases row with
    | none => simp [revokeNotification] at h
    | some n0 =>
      simp only [revokeNotification] at h
      split at h
      · simp at h
      · split at h
        · simp at h
        · simp only [RevokeResult.revoked.injEq] at h
          rw [← h]
          exact updateStatus_status _ _ _ _ _

/-- C10 witness: a concrete successful dispatcher run is QUEUED, not
DELIVERED. -/
theorem c10_success_writes_queued_witness :
    ({ status := NotificationStatus.queued, type := NotificationType.sms,
       providerId := some 1, updatedAt := 0, sentAt := some 0 } : Notification).status =
      NotificationStatus.queued :=
  c10_success_writes_queued.1
    (some { status := NotificationStatus.pending, type := NotificationType.sms,
            providerId := some 1 }) none
    { byId := fun pid => if pid = 1 then some { name := "mock" } else none }
    { success := true } 0
    { status := NotificationStatus.queued, type := NotificationType.sms,
      providerId := some 1, updatedAt := 0, sentAt := some 0 }
    { status := NotificationStatus.queued, providerName := some "mock", attemptedAt := 0 }
    (by decide)
